import Mathlib

/-!
Verification of the Eagle Eye L2 priority / POI pipeline.

The definitions below are shallow embeddings of the Python sources:
* `app/processors/l2_database_processor.py` (scoring, area and zone aggregation)
* `app/datasources/gmaps_client.py` (tiered POI locator)
* `app/datasources/besttime_client.py` (peak-hour extraction)
* `app/processors/enhanced_poi_agent.py` (grid fallback)
* `scripts/agent2_batch_processor.py` (batch POI assignment loop)

Python floats are modelled as rationals, `None`-able numerics as `Option ℚ`,
environment lookup as `String → Option String`, and functions that can raise
as `Except String _`.
-/

/-- Executable floor of a rational (equal to `⌊q⌋`, see `rfloor_eq`). -/
def rfloor (q : ℚ) : ℤ := q.num / q.den

/-- Executable round-to-nearest of a rational (equal to `round q`). -/
def rround (q : ℚ) : ℤ := rfloor (q + 1 / 2)

/-- Python's `round(x, 1)`: round to one decimal place (ties are immaterial to
the properties proved here; we use round-to-nearest on ℚ). -/
def round1 (q : ℚ) : ℚ := (rround (10 * q) : ℤ) / 10

/-- Python's `round(x, 6)` used for zone centroids. -/
def round6 (q : ℚ) : ℚ := (rround (1000000 * q) : ℤ) / 1000000

/-- The `available_score` branch of `L2DatabaseProcessor.calculate_priority_score`:
`(sum_tol_avail / sum_tol_port) * 40` if `sum_tol_port > 0` else `0`. -/
def available_ports_score (avail total : ℚ) : ℚ :=
  if 0 < total then avail / total * 40 else 0

/-- The `aging_score` branch of `calculate_priority_score`: `pd.isna` first,
then the `<= 180` / `<= 365` ladder, each weight written `n * 0.6` as in the
source. -/
def aging_urgency_score (aging : Option ℚ) : ℚ :=
  match aging with
  | none => 20 * (0.6 : ℚ)
  | some a =>
    if a ≤ 180 then 100 * (0.6 : ℚ)
    else if a ≤ 365 then 60 * (0.6 : ℚ)
    else 20 * (0.6 : ℚ)

/-- `L2DatabaseProcessor.calculate_priority_score`:
`round(available_score + aging_score, 1)`. -/
def calculate_priority_score (avail total : ℚ) (aging : Option ℚ) : ℚ :=
  round1 (available_ports_score avail total + aging_urgency_score aging)

/-- `L2DatabaseProcessor.PRIORITY_RANGES`, in the dict's insertion order. -/
def priority_ranges : List (String × ℚ × ℚ) :=
  [("VERY_HIGH", 80, 100), ("HIGH", 60, 80), ("MEDIUM", 40, 60),
   ("LOW", 20, 40), ("VERY_LOW", 0, 20)]

/-- The scan inside `_get_priority_label`: first range with
`min_score <= score < max_score` wins, else the fallback `'VERY_LOW'`. -/
def label_scan : List (String × ℚ × ℚ) → ℚ → String
  | [], _ => "VERY_LOW"
  | (l, lo, hi) :: rest, s => if lo ≤ s ∧ s < hi then l else label_scan rest s

/-- `L2DatabaseProcessor._get_priority_label`. -/
def get_priority_label (score : ℚ) : String :=
  label_scan priority_ranges score

/-- The spec's availability formula, stated from its words for comparison:
`availability_score = (available / total) * 40` if `total > 0` else `0`. -/
def spec_availability_score (avail total : ℚ) : ℚ :=
  if 0 < total then avail / total * 40 else 0

/-- The spec's urgency step function, stated from its words for comparison:
`age <= 180 → 60`, `180 < age <= 365 → 36`, `age > 365 or missing → 12`. -/
def spec_urgency_score (age : Option ℚ) : ℚ :=
  match age with
  | none => 12
  | some a => if a ≤ 180 then 60 else if a ≤ 365 then 36 else 12

/-- One row of the cleaned L2 dataset (`load_data` keeps only rows where the
coordinate, location-name, availability and aging fields are present; the
fields not consumed by the aggregation are omitted). `priority_score` and
`priority_label` are the columns attached by `calculate_priority_scores`. -/
structure L2Record where
  splt_l2 : String
  happy_block : String
  village : String
  lat : ℚ
  lng : ℚ
  sum_tol_avail : ℚ
  sum_tol_port : ℚ
  inservice_aging : Option ℚ
  priority_score : ℚ
  priority_label : String
deriving DecidableEq

/-- One Happy Block row produced by `aggregate_happy_blocks` (the dominant
status/label columns play no role in the verified properties and are
omitted). -/
structure AreaBlock where
  happy_block : String
  village_name : String
  l2_count : ℕ
  total_ports_available : ℚ
  priority_score : ℚ
  latitude : ℚ
  longitude : ℚ
deriving DecidableEq

/-- `L2DatabaseProcessor.aggregate_happy_blocks`: group the rows by
`happy_block`; per group take the count, the sum of `sum_tol_avail`, the mean
of `priority_score`, and the first row's coordinates and village name, each
numeric column rounded to one decimal as by `.round(1)`. -/
def aggregate_happy_blocks (units : List L2Record) : List AreaBlock :=
  ((units.map (·.happy_block)).dedup).map (fun hb =>
    let members := units.filter (fun u => u.happy_block == hb)
    { happy_block := hb
      village_name := ((members.head?).map (·.village)).getD ""
      l2_count := members.length
      total_ports_available := round1 ((members.map (·.sum_tol_avail)).sum)
      priority_score := round1 ((members.map (·.priority_score)).sum / members.length)
      latitude := round1 (((members.head?).map (·.lat)).getD 0)
      longitude := round1 (((members.head?).map (·.lng)).getD 0) })

/-- One Sales Zone row of `create_sales_zones`. `members` holds the member
Happy Block ids whose `', '.join` renders the `Happy_Blocks` cell. -/
structure SalesZone where
  sales_zone_id : String
  village_name : String
  happy_block_count : ℕ
  members : List String
  l2_count : ℕ
  total_ports_available : ℚ
  priority_score : ℚ
  central_latitude : ℚ
  central_longitude : ℚ
deriving DecidableEq

/-- Decimal digits of a natural number (recursion on a fuel bound). -/
def nat_digits_aux : ℕ → ℕ → List Char
  | 0, _ => []
  | fuel + 1, n =>
    if n < 10 then [Char.ofNat (48 + n)]
    else nat_digits_aux fuel (n / 10) ++ [Char.ofNat (48 + n % 10)]

/-- Decimal representation of a natural number, as characters. -/
def nat_digits (n : ℕ) : List Char := nat_digits_aux (n + 1) n

/-- The multi-block villages of `create_sales_zones`: village names whose
Happy-Block count in the aggregated data exceeds one. -/
def multi_block_villages (blocks : List AreaBlock) : List String :=
  ((blocks.map (·.village_name)).dedup).filter
    (fun v => 1 < (blocks.filter (fun b => b.village_name == v)).length)

/-- The member blocks of one village. -/
def village_blocks (blocks : List AreaBlock) (v : String) : List AreaBlock :=
  blocks.filter (fun b => b.village_name == v)

/-- The composite Sales Zone built for one multi-block village. -/
def multi_block_zone (blocks : List AreaBlock) (v : String) : SalesZone :=
  { sales_zone_id := v ++ "_ZONE_"
      ++ String.mk (nat_digits (village_blocks blocks v).length) ++ "BLOCKS"
    village_name := v
    happy_block_count := (village_blocks blocks v).length
    members := (village_blocks blocks v).map (·.happy_block)
    l2_count := ((village_blocks blocks v).map (·.l2_count)).sum
    total_ports_available := ((village_blocks blocks v).map (·.total_ports_available)).sum
    priority_score := round1 (((village_blocks blocks v).map (·.priority_score)).sum
      / (village_blocks blocks v).length)
    central_latitude := round6 (((village_blocks blocks v).map (·.latitude)).sum
      / (village_blocks blocks v).length)
    central_longitude := round6 (((village_blocks blocks v).map (·.longitude)).sum
      / (village_blocks blocks v).length) }

/-- The trivial Sales Zone wrapping one single-block village's block. -/
def single_block_zone (b : AreaBlock) : SalesZone :=
  { sales_zone_id := b.village_name ++ "_ZONE_1BLOCK"
    village_name := b.village_name
    happy_block_count := 1
    members := [b.happy_block]
    l2_count := b.l2_count
    total_ports_available := b.total_ports_available
    priority_score := b.priority_score
    central_latitude := b.latitude
    central_longitude := b.longitude }

/-- `L2DatabaseProcessor.create_sales_zones`: villages spanning more than one
Happy Block become one composite zone (id `<village>_ZONE_<n>BLOCKS`, metrics
aggregated over the member blocks); every block of the remaining villages
becomes its own trivial zone (id `<village>_ZONE_1BLOCK`). -/
def create_sales_zones (blocks : List AreaBlock) : List SalesZone :=
  (multi_block_villages blocks).map (multi_block_zone blocks)
    ++ (blocks.filter
        (fun b => !((multi_block_villages blocks).contains b.village_name))).map
      single_block_zone

/-- A venue as returned by the POI provider (`find_nearby_places` result dict).
`lat`/`lng` are `Option` because the geometry fields are `get`-accessed and may
be absent; the `search_*`, `distance_km` and `confidence_level` fields are
attached during the locate call. -/
structure Place where
  name : String := ""
  place_id : String := ""
  address : String := ""
  rating : ℚ := 0
  types : List String := []
  lat : Option ℚ := none
  lng : Option ℚ := none
  search_keyword : String := ""
  search_type : String := ""
  distance_km : ℚ := 0
  confidence_level : String := ""
deriving DecidableEq

/-- One provider query of a confidence zone: keyword, radius, place type. -/
structure SearchSpec where
  keyword : String
  radius : ℕ
  stype : String
deriving DecidableEq

/-- One confidence zone of the multi-tier strategy: zone label, maximum
distance in km, and the list of provider queries. -/
structure SearchStrategy where
  zone : String
  max_distance : ℚ
  searches : List SearchSpec

/-- High-confidence zone: 0-1 km, convenience stores only. -/
def strategy_high : SearchStrategy :=
  { zone := "HIGH", max_distance := 1,
    searches :=
      [⟨"7-Eleven", 1000, "convenience_store"⟩,
       ⟨"เซเว่น", 1000, "convenience_store"⟩,
       ⟨"FamilyMart", 1000, "convenience_store"⟩,
       ⟨"Lotus Express", 1000, "convenience_store"⟩,
       ⟨"CP Freshmart", 1000, "convenience_store"⟩,
       ⟨"Big C Mini", 1000, "convenience_store"⟩] }

/-- Medium-confidence zone: 1-2 km, convenience stores plus supermarkets. -/
def strategy_medium : SearchStrategy :=
  { zone := "MEDIUM", max_distance := 2,
    searches :=
      [⟨"7-Eleven", 2000, "convenience_store"⟩,
       ⟨"Big C", 2000, "supermarket"⟩,
       ⟨"Lotus", 2000, "supermarket"⟩,
       ⟨"Makro", 2000, "supermarket"⟩,
       ⟨"Tesco", 2000, "supermarket"⟩,
       ⟨"ห้างสรรพสินค้า", 2000, "shopping_mall"⟩] }

/-- Low-confidence zone: 2-3 km, all retail types. -/
def strategy_low : SearchStrategy :=
  { zone := "LOW", max_distance := 3,
    searches :=
      [⟨"convenience store", 3000, "convenience_store"⟩,
       ⟨"supermarket", 3000, "supermarket"⟩,
       ⟨"ตลาด", 3000, "establishment"⟩,
       ⟨"ร้านค้า", 3000, "store"⟩,
       ⟨"shopping mall", 3000, "shopping_mall"⟩] }

/-- The `search_strategies` list of
`find_nearest_convenience_store_for_residential_analysis`, in source order. -/
def search_strategies : List SearchStrategy :=
  [strategy_high, strategy_medium, strategy_low]

/-- Substring test, as Python's `needle in hay`. -/
def str_contains_sub (hay needle : List Char) : Bool :=
  hay.tails.any (fun t => needle.isPrefixOf t)

/-- The brand keywords granted the convenience-store bonus. -/
def poi_brand_keywords : List String := ["7-ELEVEN", "เซเว่น", "CP", "LOTUS"]

/-- Whether a place gets the convenience-store priority bonus:
`'convenience_store' in place_types or any(brand in name.upper() ...)`. -/
def has_convenience_bonus (p : Place) : Bool :=
  p.types.contains "convenience_store" ||
    poi_brand_keywords.any
      (fun b => str_contains_sub (p.name.toList.map Char.toUpper) b.toList)

/-- Candidate score inside a zone: distance minus the category bonus
(0.5 km for convenience stores, 0.2 km for supermarkets). Lower is better. -/
def poi_score (p : Place) : ℚ :=
  if has_convenience_bonus p then p.distance_km - 0.5
  else if p.types.contains "supermarket" then p.distance_km - 0.2
  else p.distance_km

/-- The best-POI selection loop: iterate in insertion order, keep the first
candidate whose score is strictly below the best so far. -/
def best_poi_loop : List Place → Option (Place × ℚ) → Option (Place × ℚ)
  | [], acc => acc
  | p :: ps, acc =>
    match acc with
    | none => best_poi_loop ps (some (p, poi_score p))
    | some (b, bs) =>
      if poi_score p < bs then best_poi_loop ps (some (p, poi_score p))
      else best_poi_loop ps (some (b, bs))

/-- `select_best_poi` candidates: the loop started with no best (score
`inf`), returning the winning place. -/
def select_best_poi (l : List Place) : Option Place :=
  (best_poi_loop l none).map (·.1)

/-- Python truthiness of an optional float: `None` and `0.0` are falsy. -/
def py_truthy : Option ℚ → Bool
  | none => false
  | some v => decide (v ≠ 0)

/-- The `valid_places` construction of one zone: keep a place when its id is
truthy, not yet kept, and not excluded; its coordinates are present and
truthy; and its distance is within the zone radius. Kept places receive the
computed distance and the zone's confidence label, and their id joins the
kept set (`seen`), deduplicating later occurrences. -/
def filter_valid (dist : ℚ → ℚ → ℚ → ℚ → ℚ) (lat lng maxd : ℚ)
    (excluded : List String) (zone : String) :
    List Place → List String → List Place
  | [], _ => []
  | p :: ps, seen =>
    if p.place_id ≠ "" ∧ p.place_id ∉ seen ∧ p.place_id ∉ excluded then
      if py_truthy p.lat ∧ py_truthy p.lng then
        if dist lat lng (p.lat.getD 0) (p.lng.getD 0) ≤ maxd then
          { p with
            distance_km := dist lat lng (p.lat.getD 0) (p.lng.getD 0),
            confidence_level := zone }
            :: filter_valid dist lat lng maxd excluded zone ps (p.place_id :: seen)
        else filter_valid dist lat lng maxd excluded zone ps seen
      else filter_valid dist lat lng maxd excluded zone ps seen
    else filter_valid dist lat lng maxd excluded zone ps seen

/-- Tag a provider result with the query that produced it. -/
def tag_search (sp : SearchSpec) (p : Place) : Place :=
  { p with search_keyword := sp.keyword, search_type := sp.stype }

/-- All (tagged) provider results of one zone's searches; a query that raises
is caught and contributes no results, so the provider is modelled as a total
function. -/
def zone_places (provider : ℚ → ℚ → SearchSpec → List Place) (lat lng : ℚ)
    (st : SearchStrategy) : List Place :=
  ((st.searches.map (fun sp => (provider lat lng sp).map (tag_search sp))).flatten)

/-- The valid candidates of one zone. -/
def tier_valid (provider : ℚ → ℚ → SearchSpec → List Place)
    (dist : ℚ → ℚ → ℚ → ℚ → ℚ) (lat lng : ℚ) (excluded : List String)
    (st : SearchStrategy) : List Place :=
  filter_valid dist lat lng st.max_distance excluded st.zone
    (zone_places provider lat lng st) []

/-- The zone loop: return the best valid candidate of the first zone that has
any, otherwise fall through to the next zone. -/
def locate_tiers (provider : ℚ → ℚ → SearchSpec → List Place)
    (dist : ℚ → ℚ → ℚ → ℚ → ℚ) (lat lng : ℚ) (excluded : List String) :
    List SearchStrategy → Option Place
  | [] => none
  | st :: rest =>
    match select_best_poi (tier_valid provider dist lat lng excluded st) with
    | some b => some b
    | none => locate_tiers provider dist lat lng excluded rest

/-- `find_nearest_convenience_store_for_residential_analysis`. The
`GoogleMapsClient` is constructed before the catch-all `try`, so a missing
`GOOGLE_MAPS_API_KEY` raises `RuntimeError` to the caller; afterwards the
tiered search runs under the catch-all. The provider and distance functions
are injected collaborators. -/
def find_nearest_convenience_store_for_residential_analysis
    (env : String → Option String) (provider : ℚ → ℚ → SearchSpec → List Place)
    (dist : ℚ → ℚ → ℚ → ℚ → ℚ) (lat lng : ℚ) (excluded : List String) :
    Except String (Option Place) :=
  match env "GOOGLE_MAPS_API_KEY" with
  | none => Except.error "GOOGLE_MAPS_API_KEY environment variable is required"
  | some k =>
    if k = "" then Except.error "GOOGLE_MAPS_API_KEY environment variable is required"
    else Except.ok (locate_tiers provider dist lat lng excluded search_strategies)

/-- One row of `get_poi_for_village`'s result (the fields the batch loop
consumes). An empty `indicator_poi` encodes "no POI found". -/
structure VillagePOIRow where
  village_name : String
  indicator_poi : String := ""
  indicator_place_id : String := ""
  indicator_address : String := ""
  confidence_level : String := "NONE"
  poi_distance_km : ℚ := 0
deriving DecidableEq

/-- `get_poi_for_village`: wraps the locate call; on success copies the POI
fields into the row, a locate miss leaves the defaults. It has no exception
guard, so a raising locate call propagates. -/
def get_poi_for_village (env : String → Option String)
    (provider : ℚ → ℚ → SearchSpec → List Place) (dist : ℚ → ℚ → ℚ → ℚ → ℚ)
    (name : String) (lat lng : ℚ) (excluded : List String) :
    Except String VillagePOIRow :=
  match find_nearest_convenience_store_for_residential_analysis
      env provider dist lat lng excluded with
  | Except.error e => Except.error e
  | Except.ok none => Except.ok { village_name := name }
  | Except.ok (some p) =>
    Except.ok { village_name := name, indicator_poi := p.name,
                indicator_place_id := p.place_id, indicator_address := p.address,
                confidence_level := p.confidence_level,
                poi_distance_km := p.distance_km }

/-- A village row of the Agent-2 batch (name and coordinates). -/
structure Village where
  name : String
  lat : ℚ
  lng : ℚ

/-- `Agent2BatchProcessor.process_village_batch`: process villages in order;
a per-village exception is caught and skips the village; a found POI is
appended to the results and its place id is added to `used_place_ids` before
the next village is processed. -/
def process_village_batch (env : String → Option String)
    (provider : ℚ → ℚ → SearchSpec → List Place) (dist : ℚ → ℚ → ℚ → ℚ → ℚ) :
    List Village → List String → List VillagePOIRow
  | [], _ => []
  | v :: vs, used =>
    match get_poi_for_village env provider dist v.name v.lat v.lng used with
    | Except.error _ => process_village_batch env provider dist vs used
    | Except.ok row =>
      if row.indicator_poi ≠ "" then
        row :: process_village_batch env provider dist vs
          (if row.indicator_place_id ≠ "" then row.indicator_place_id :: used
           else used)
      else process_village_batch env provider dist vs used

/-- `besttime_client._private_key`: raises `RuntimeError` when the private
key environment variable is unset or empty. -/
def besttime_private_key (env : String → Option String) : Except String String :=
  match env "BESTTIME_API_KEY_PRIVATE" with
  | none => Except.error "BESTTIME_API_KEY_PRIVATE is not set"
  | some k =>
    if k = "" then Except.error "BESTTIME_API_KEY_PRIVATE is not set"
    else Except.ok k

/-- A provider double: one supermarket hit for the `Big C` query. -/
def demo_place : Place :=
  { name := "Big C Market", place_id := "P_DEMO", address := "Main Road 1",
    types := ["supermarket"], lat := some 1, lng := some 1 }

/-- `demo_place` as located by the MEDIUM zone. -/
def demo_place_located : Place :=
  { demo_place with
    search_keyword := "Big C",
    search_type := "supermarket",
    distance_km := 0,
    confidence_level := "MEDIUM" }

/-- A provider double answering only the `Big C` query. -/
def demo_provider : ℚ → ℚ → SearchSpec → List Place :=
  fun _ _ sp => if sp.keyword = "Big C" then [demo_place] else []

/-- A distance double. -/
def zero_distance : ℚ → ℚ → ℚ → ℚ → ℚ := fun _ _ _ _ => 0

/-- An environment with every variable set. -/
def demo_env : String → Option String := fun _ => some "demo-key"

/-- An environment with every variable unset. -/
def none_env : String → Option String := fun _ => none

/-- A sample cleaned L2 row used to instantiate the aggregation theorems. -/
def sample_unit (id hb v : String) : L2Record :=
  { splt_l2 := id, happy_block := hb, village := v, lat := 9, lng := 99,
    sum_tol_avail := 4, sum_tol_port := 10, inservice_aging := some 100,
    priority_score := 76, priority_label := "HIGH" }

/-- A sample aggregated Happy Block row used to instantiate the zone
theorems. -/
def sample_block (hb v : String) : AreaBlock :=
  { happy_block := hb, village_name := v, l2_count := 1,
    total_ports_available := 4, priority_score := 76, latitude := 9,
    longitude := 99 }

/-- Python's `s.split('-')` on the character list of an id. -/
def split_on_dash_aux : List Char → List Char → List (List Char)
  | [], acc => [acc.reverse]
  | c :: cs, acc =>
    if c = '-' then acc.reverse :: split_on_dash_aux cs []
    else split_on_dash_aux cs (c :: acc)

/-- Python's `int(s)` on a digit string: `none` when empty or non-numeric. -/
def chars_to_nat_aux : List Char → ℕ → Option ℕ
  | [], acc => some acc
  | c :: cs, acc =>
    if 48 ≤ c.toNat ∧ c.toNat ≤ 57 then
      chars_to_nat_aux cs (acc * 10 + (c.toNat - 48))
    else none

/-- Parse a non-empty digit string. -/
def chars_to_nat (cs : List Char) : Option ℕ :=
  if cs.isEmpty then none else chars_to_nat_aux cs 0

/-- The Happy Block id parse of `_generate_nearby_happy_blocks`:
`"09320-099700" → (9320, 99700)`; a malformed id (wrong number of parts or
non-numeric part) raises and is caught, yielding no neighbors. -/
def parse_happy_block (s : String) : Option (ℤ × ℤ) :=
  match split_on_dash_aux s.toList [] with
  | [a, b] =>
    match chars_to_nat a, chars_to_nat b with
    | some x, some y => some ((x : ℤ), (y : ℤ))
    | _, _ => none
  | _ => none

/-- Zero-padding to a fixed width. -/
def pad_zeros (w : ℕ) (cs : List Char) : List Char :=
  List.replicate (w - cs.length) '0' ++ cs

/-- Python's `f"{n:0wd}"`: fixed-width zero-padded decimal. -/
def int_pad (w : ℕ) (n : ℤ) : List Char :=
  if n < 0 then '-' :: pad_zeros (w - 1) (nat_digits n.natAbs)
  else pad_zeros w (nat_digits n.toNat)

/-- The neighbor id format `f"{new_lat:05d}-{new_lng:06d}"`. -/
def format_happy_block (latg lngg : ℤ) : String :=
  String.mk (int_pad 5 latg ++ '-' :: int_pad 6 lngg)

/-- Ring 1 of `_generate_nearby_happy_blocks`: direct neighbors. -/
def ring1_offsets : List (ℤ × ℤ) := [(-5, 0), (5, 0), (0, -5), (0, 5)]

/-- Ring 2: diagonal neighbors. -/
def ring2_offsets : List (ℤ × ℤ) := [(-5, -5), (-5, 5), (5, -5), (5, 5)]

/-- Ring 3: extended neighbors. -/
def ring3_offsets : List (ℤ × ℤ) :=
  [(-10, 0), (10, 0), (0, -10), (0, 10), (-10, -5), (-10, 5), (10, -5), (10, 5)]

/-- `EnhancedPOIAgent._generate_nearby_happy_blocks`: decode the grid id,
apply the three rings of fixed offsets in order, and emit each neighbor's id
and decimal coordinates (`grid / 1000`). -/
def generate_nearby_happy_blocks (current_id : String) : List (String × ℚ × ℚ) :=
  match parse_happy_block current_id with
  | none => []
  | some (lat0, lng0) =>
    (ring1_offsets ++ ring2_offsets ++ ring3_offsets).map (fun off =>
      (format_happy_block (lat0 + off.1) (lng0 + off.2),
       ((lat0 + off.1 : ℤ) : ℚ) / 1000, ((lng0 + off.2 : ℤ) : ℚ) / 1000))

/-- One hour record of a BestTime day analysis: `hour` and `intensity_nr`
(999 is the reserved CLOSED sentinel). -/
structure HourRec where
  hour : ℤ
  intensity : ℤ
deriving DecidableEq

/-- `besttime_client.extract_peak_hours`: pick the day's hour analysis (empty
when the day index is out of range), keep hours that are not the 999 sentinel
and meet the minimum intensity, format them `HH:00` in series order, and
return the first three (`peak_hours[:3]`). -/
def extract_peak_hours (analysis : List (List HourRec)) (day_index : ℕ)
    (min_intensity : ℤ) : List String :=
  if analysis.length ≤ day_index then []
  else
    (((analysis.getD day_index []).filter
        (fun h => decide (h.intensity ≠ 999 ∧ min_intensity ≤ h.intensity))).map
      (fun h => String.mk (int_pad 2 h.hour) ++ ":00")).take 3

/-- Insertion into a descending-intensity ordering. -/
def insert_desc_intensity (h : HourRec) : List HourRec → List HourRec
  | [] => [h]
  | x :: xs =>
    if x.intensity < h.intensity then h :: x :: xs
    else x :: insert_desc_intensity h xs

/-- Sort hour records by descending intensity. -/
def sort_desc_intensity (l : List HourRec) : List HourRec :=
  l.foldr insert_desc_intensity []

/-- Insertion into an ascending ordering of hours. -/
def insert_asc_int (n : ℤ) : List ℤ → List ℤ
  | [] => [n]
  | x :: xs => if n ≤ x then n :: x :: xs else x :: insert_asc_int n xs

/-- Sort hours ascending. -/
def sort_asc_int (l : List ℤ) : List ℤ := l.foldr insert_asc_int []

/-- The spec's selection rule, stated from its words for comparison: of the
qualifying (non-sentinel, at-or-above-threshold) hours, take up to three
ranked by descending intensity, then present them ascending by hour as
`HH:00` strings. -/
def spec_ranked_peak_hours (day : List HourRec) (min_intensity : ℤ) : List String :=
  (sort_asc_int (((sort_desc_intensity (day.filter
      (fun h => decide (h.intensity ≠ 999 ∧ min_intensity ≤ h.intensity)))).take 3).map
    (·.hour))).map (fun h => String.mk (int_pad 2 h) ++ ":00")

section ScoringTheorems

/-- The executable floor agrees with `⌊⌋`. -/
theorem rfloor_eq (q : ℚ) : rfloor q = ⌊q⌋ := Rat.floor_def.symm

/-- The executable rounding agrees with `round`. -/
theorem rround_eq (q : ℚ) : rround q = round q := by
  unfold rround
  rw [rfloor_eq, round_eq]

/-- `round1` in terms of `round`. -/
theorem round1_eq (q : ℚ) : round1 q = ((round (10 * q) : ℤ) : ℚ) / 10 := by
  unfold round1
  rw [rround_eq]

/-- C1: the per-unit priority score computed by the code equals
`round(availability_score + urgency_score, 1)` with the spec's availability
formula and urgency step function; and the concrete unit
`total=10, available=4, age=100` gets availability 16, urgency 60,
score 76.0 and label HIGH. -/
theorem priority_score_matches_spec :
    (∀ (avail total : ℚ) (aging : Option ℚ),
      calculate_priority_score avail total aging =
        round1 (spec_availability_score avail total + spec_urgency_score aging)) ∧
    spec_availability_score 4 10 = 16 ∧
    spec_urgency_score (some 100) = 60 ∧
    calculate_priority_score 4 10 (some 100) = 76 ∧
    get_priority_label (calculate_priority_score 4 10 (some 100)) = "HIGH" := by
  refine ⟨?_, by norm_num [spec_availability_score], by norm_num [spec_urgency_score], ?_, ?_⟩
  · intro avail total aging
    unfold calculate_priority_score available_ports_score
      aging_urgency_score spec_availability_score spec_urgency_score
    cases aging with
    | none => norm_num
    | some a => split_ifs <;> norm_num
  · unfold calculate_priority_score available_ports_score aging_urgency_score
    rw [round1_eq]
    norm_num
  · unfold get_priority_label priority_ranges
    unfold calculate_priority_score available_ports_score aging_urgency_score
    rw [round1_eq]
    norm_num [label_scan]

/-- `round1` is monotone: rounding to one decimal preserves order. -/
theorem round1_mono {x y : ℚ} (h : x ≤ y) : round1 x ≤ round1 y := by
  rw [round1_eq, round1_eq]
  have hr : round (10 * x) ≤ round (10 * y) := by
    rw [round_eq, round_eq]
    exact Int.floor_le_floor (by linarith)
  have : ((round (10 * x) : ℤ) : ℚ) ≤ ((round (10 * y) : ℤ) : ℚ) := by exact_mod_cast hr
  linarith

/-- `round1` fixes one-decimal values such as the endpoints 0 and 100. -/
theorem round1_intCast (n : ℤ) : round1 ((n : ℚ)) = n := by
  rw [round1_eq]
  rw [show (10 : ℚ) * (n : ℚ) = ((10 * n : ℤ) : ℚ) by push_cast; ring, round_intCast]
  push_cast
  field_simp

/-- C2 amended: for every unit whose capacities satisfy
`0 ≤ available ≤ total`, the priority score lies in [0, 100]; and a unit
with zero total capacity contributes an availability component of 0. The
bound needs the capacity hypothesis: the scorer does not clamp, see
`priority_score_exceeds_hundred`. -/
theorem priority_score_in_range :
    ∀ (avail total : ℚ) (aging : Option ℚ),
      (0 ≤ avail → avail ≤ total →
        0 ≤ calculate_priority_score avail total aging ∧
        calculate_priority_score avail total aging ≤ 100) ∧
      (total = 0 → available_ports_score avail total = 0) := by
  intro avail total aging
  constructor
  · intro ha hat
    have havail : 0 ≤ available_ports_score avail total ∧
        available_ports_score avail total ≤ 40 := by
      unfold available_ports_score
      split_ifs with h
      · constructor
        · positivity
        · have h1 : avail / total ≤ 1 := (div_le_one h).mpr hat
          nlinarith
      · norm_num
    have haging : 12 ≤ aging_urgency_score aging ∧ aging_urgency_score aging ≤ 60 := by
      cases aging with
      | none => norm_num [aging_urgency_score]
      | some a =>
        simp only [aging_urgency_score]
        split_ifs <;> norm_num
    unfold calculate_priority_score
    constructor
    · have := round1_mono (x := 0)
        (y := available_ports_score avail total + aging_urgency_score aging) (by linarith)
      rw [show (0 : ℚ) = ((0 : ℤ) : ℚ) by norm_num] at this
      rw [round1_intCast] at this
      exact le_trans (by norm_num) this
    · have := round1_mono
        (x := available_ports_score avail total + aging_urgency_score aging)
        (y := 100) (by linarith)
      rw [show (100 : ℚ) = ((100 : ℤ) : ℚ) by norm_num] at this
      rw [round1_intCast] at this
      exact le_trans this (by norm_num)
  · intro h
    subst h
    unfold available_ports_score
    norm_num

/-- Witness instantiating `priority_score_in_range` at the concrete unit
`total=10, available=4, age=100` and at a unit with zero total capacity. -/
theorem priority_score_in_range_witness :
    (0 ≤ calculate_priority_score 4 10 (some 100) ∧
      calculate_priority_score 4 10 (some 100) ≤ 100) ∧
    available_ports_score 4 0 = 0 :=
  ⟨(priority_score_in_range 4 10 (some 100)).1 (by norm_num) (by norm_num),
   (priority_score_in_range 4 0 (some 100)).2 rfl⟩

/-- C2 counterexample: the scoring function does not clamp, so a unit whose
available capacity exceeds its total (which `load_data` does not rule out —
it only drops null fields) scores above 100: `avail=50, total=10, age=100`
gives `(50/10)*40 + 60 = 260.0`. -/
theorem priority_score_exceeds_hundred :
    calculate_priority_score 50 10 (some 100) = 260 ∧
    ¬(calculate_priority_score 50 10 (some 100) ≤ 100) := by
  have h : calculate_priority_score 50 10 (some 100) = 260 := by
    unfold calculate_priority_score available_ports_score aging_urgency_score
    rw [round1_eq]
    norm_num
  refine ⟨h, ?_⟩
  rw [h]
  norm_num

/-- C3 counterexample: the code's top band `(80, 100)` is half-open, so a
score of exactly 100 matches no band and falls through to the catch-all
`'VERY_LOW'`, not the top band's label. -/
theorem priority_label_at_hundred :
    get_priority_label 100 = "VERY_LOW" ∧ "VERY_LOW" ≠ "VERY_HIGH" := by
  constructor
  · unfold get_priority_label priority_ranges
    norm_num [label_scan]
  · decide

/-- C3 amended: the label function scans the five bands in dict order with
the first matching half-open band `[lo, hi)` winning; every band including
the top one is half-open, so a score of exactly 100 matches no band and
receives the catch-all `'VERY_LOW'`. -/
theorem priority_label_bands :
    ∀ s : ℚ, get_priority_label s =
      (if 80 ≤ s ∧ s < 100 then "VERY_HIGH"
       else if 60 ≤ s ∧ s < 80 then "HIGH"
       else if 40 ≤ s ∧ s < 60 then "MEDIUM"
       else if 20 ≤ s ∧ s < 40 then "LOW"
       else "VERY_LOW") := by
  intro s
  unfold get_priority_label priority_ranges
  simp only [label_scan]
  split_ifs <;> rfl

end ScoringTheorems

section AggregationTheorems

/-- Filtering by a disjunction of two mutually exclusive predicates is, up to
permutation, the concatenation of the two filters. -/
theorem perm_filter_split {α : Type} (p q r : α → Bool)
    (hpr : ∀ x, r x = (p x || q x)) (hpq : ∀ x, ¬(p x = true ∧ q x = true))
    (l : List α) :
    List.Perm (l.filter p ++ l.filter q) (l.filter r) := by
  induction l with
  | nil => simp
  | cons x l ih =>
    rw [List.filter_cons, List.filter_cons, List.filter_cons, hpr x]
    cases hp : p x with
    | true =>
      have hq : q x = false := by
        cases hq : q x with
        | true => exact absurd ⟨hp, hq⟩ (hpq x)
        | false => rfl
      simp only [hp, hq, if_true, if_false, Bool.true_or, List.cons_append]
      exact ih.cons x
    | false =>
      cases hq : q x with
      | true =>
        simp only [hp, hq, if_false, if_true, Bool.false_or]
        exact List.perm_middle.trans (ih.cons x)
      | false =>
        simp only [hp, hq, if_false, Bool.false_or]
        exact ih

/-- Splitting off the group of one fresh key from the groups of the remaining
keys is a permutation of the combined filter. -/
theorem perm_filter_key_cons {α β : Type} [DecidableEq β] (f : α → β) (v : β) (vs : List β)
    (hv : v ∉ vs) (l : List α) :
    List.Perm
      (l.filter (fun x => f x == v) ++ l.filter (fun x => vs.contains (f x)))
      (l.filter (fun x => (v :: vs).contains (f x))) := by
  apply perm_filter_split
  · intro x
    exact List.contains_cons
  · intro x h
    obtain ⟨h1, h2⟩ := h
    rw [beq_iff_eq] at h1
    rw [List.contains, List.elem_eq_mem, decide_eq_true_eq] at h2
    rw [h1] at h2
    exact hv h2

/-- The concatenation of the per-key groups over a duplicate-free key list is
a permutation of the elements whose key occurs in that list. -/
theorem perm_flatten_groups {α β : Type} [DecidableEq β] (f : α → β) (l : List α) :
    ∀ vs : List β, vs.Nodup →
      List.Perm ((vs.map (fun v => l.filter (fun x => f x == v))).flatten)
        (l.filter (fun x => vs.contains (f x))) := by
  intro vs
  induction vs with
  | nil => simp
  | cons v vs ih =>
    intro h
    have hv : v ∉ vs := (List.nodup_cons.mp h).1
    have htl := ih (List.nodup_cons.mp h).2
    have hstep : ((v :: vs).map (fun v => l.filter (fun x => f x == v))).flatten
        = l.filter (fun x => f x == v)
            ++ ((vs.map (fun v => l.filter (fun x => f x == v))).flatten) := by simp
    rw [hstep]
    exact (List.Perm.append_left _ htl).trans (perm_filter_key_cons f v vs hv l)

/-- Grouping a list by all of its distinct keys permutes the list. -/
theorem perm_flatten_groups_dedup {α β : Type} [DecidableEq β] (f : α → β) (l : List α) :
    List.Perm ((((l.map f).dedup).map (fun v => l.filter (fun x => f x == v))).flatten) l := by
  have h := perm_flatten_groups f l (l.map f).dedup (List.nodup_dedup _)
  have heq : l.filter (fun x => ((l.map f).dedup).contains (f x)) = l := by
    apply List.filter_eq_self.mpr
    intro a ha
    simp only [List.elem_eq_mem, decide_eq_true_eq, List.mem_dedup]
    exact List.mem_map_of_mem f ha
  rw [heq] at h
  exact h

/-- C4: area aggregation preserves the unit count — the per-area member
counts sum to the number of input units — and every unit belongs to exactly
one AreaBlock (exactly one area row carries its happy-block key). -/
theorem aggregate_preserves_units :
    ∀ units : List L2Record,
      (((aggregate_happy_blocks units).map (·.l2_count)).sum = units.length) ∧
      (∀ u ∈ units, ∃! a, a ∈ aggregate_happy_blocks units ∧
        a.happy_block = u.happy_block) := by
  intro units
  have hmapkey : (aggregate_happy_blocks units).map (·.happy_block) =
      (units.map (·.happy_block)).dedup := by
    unfold aggregate_happy_blocks
    rw [List.map_map]
    exact List.map_id'' (fun hb => rfl) _
  constructor
  · have h1 : (aggregate_happy_blocks units).map (·.l2_count) =
        ((units.map (·.happy_block)).dedup).map
          (fun hb => (units.filter (fun u => u.happy_block == hb)).length) := by
      unfold aggregate_happy_blocks
      rw [List.map_map]
      rfl
    rw [h1]
    have h2 := (perm_flatten_groups_dedup (fun u : L2Record => u.happy_block) units).length_eq
    rw [List.length_flatten, List.map_map] at h2
    exact h2
  · intro u hu
    have hnd : ((aggregate_happy_blocks units).map (·.happy_block)).Nodup := by
      rw [hmapkey]; exact List.nodup_dedup _
    have hkey : u.happy_block ∈ (aggregate_happy_blocks units).map (·.happy_block) := by
      rw [hmapkey]
      exact List.mem_dedup.mpr (List.mem_map_of_mem _ hu)
    obtain ⟨a, ha, hak⟩ := List.mem_map.mp hkey
    refine ⟨a, ⟨ha, hak⟩, ?_⟩
    intro b hb
    exact List.inj_on_of_nodup_map hnd hb.1 ha (by rw [hak, hb.2])

/-- Witness instantiating `aggregate_preserves_units` on a concrete three-unit
dataset spanning two Happy Blocks. -/
theorem aggregate_preserves_units_witness :
    (((aggregate_happy_blocks
        [sample_unit "L1" "HB1" "V1", sample_unit "L2" "HB1" "V1",
         sample_unit "L3" "HB2" "V1"]).map (·.l2_count)).sum =
      ([sample_unit "L1" "HB1" "V1", sample_unit "L2" "HB1" "V1",
        sample_unit "L3" "HB2" "V1"] : List L2Record).length) ∧
    (∃! a, a ∈ aggregate_happy_blocks
        [sample_unit "L1" "HB1" "V1", sample_unit "L2" "HB1" "V1",
         sample_unit "L3" "HB2" "V1"] ∧
      a.happy_block = (sample_unit "L1" "HB1" "V1").happy_block) :=
  ⟨(aggregate_preserves_units _).1,
   (aggregate_preserves_units _).2 (sample_unit "L1" "HB1" "V1") (by simp)⟩

/-- Flattening singleton lists recovers the mapped list. -/
theorem flatten_map_singleton {α β : Type} (g : α → β) (l : List α) :
    (l.map (fun x => [g x])).flatten = l.map g := by
  induction l with
  | nil => rfl
  | cons x l ih => simp [ih]

/-- C5: the Sales Zones strictly partition the AreaBlocks — the concatenation
of all zones' member-id lists is a permutation of the input block ids, and
when block ids are distinct every block id occurs in the zones' member lists
exactly once. -/
theorem sales_zones_partition_blocks :
    ∀ blocks : List AreaBlock,
      (List.Perm (((create_sales_zones blocks).map (·.members)).flatten)
        (blocks.map (·.happy_block))) ∧
      ((blocks.map (·.happy_block)).Nodup →
        ∀ b ∈ blocks,
          (((create_sales_zones blocks).map (·.members)).flatten).count b.happy_block
            = 1) := by
  intro blocks
  have hf1 : ((fun z : SalesZone => z.members) ∘ multi_block_zone blocks)
      = fun v => (blocks.filter (fun b => b.village_name == v)).map
          (fun b => b.happy_block) := by
    funext v; rfl
  have hf2 : ((fun z : SalesZone => z.members) ∘ single_block_zone)
      = fun b : AreaBlock => [b.happy_block] := by
    funext b; rfl
  have hnodup : (multi_block_villages blocks).Nodup := by
    unfold multi_block_villages
    exact (List.nodup_dedup _).filter _
  have hperm : List.Perm (((create_sales_zones blocks).map (·.members)).flatten)
      (blocks.map (·.happy_block)) := by
    unfold create_sales_zones
    simp only [List.map_append, List.map_map, List.flatten_append]
    rw [hf1, hf2, flatten_map_singleton]
    have hL : ((multi_block_villages blocks).map
        (fun v => (blocks.filter (fun b => b.village_name == v)).map
          (fun b => b.happy_block))).flatten
        = (((multi_block_villages blocks).map
            (fun v => blocks.filter (fun b => b.village_name == v))).flatten).map
          (fun b => b.happy_block) := by
      rw [List.map_flatten, List.map_map]
      rfl
    rw [hL, ← List.map_append]
    have h1 := perm_flatten_groups (fun b : AreaBlock => b.village_name) blocks
      (multi_block_villages blocks) hnodup
    have h2 := List.filter_append_perm
      (fun b : AreaBlock => (multi_block_villages blocks).contains b.village_name) blocks
    exact ((h1.append_right _).trans h2).map _
  refine ⟨hperm, ?_⟩
  intro hnd b hb
  rw [hperm.count_eq]
  exact List.count_eq_one_of_mem hnd (List.mem_map_of_mem _ hb)

/-- Witness instantiating `sales_zones_partition_blocks` on a concrete set of
three blocks: a two-block village and a single-block village. -/
theorem sales_zones_partition_blocks_witness :
    List.Perm (((create_sales_zones
        [sample_block "HB1" "V1", sample_block "HB2" "V1",
         sample_block "HB3" "V2"]).map (·.members)).flatten)
      (([sample_block "HB1" "V1", sample_block "HB2" "V1",
         sample_block "HB3" "V2"] : List AreaBlock).map (·.happy_block)) ∧
    (((create_sales_zones
        [sample_block "HB1" "V1", sample_block "HB2" "V1",
         sample_block "HB3" "V2"]).map (·.members)).flatten).count
      (sample_block "HB1" "V1").happy_block = 1 :=
  ⟨(sales_zones_partition_blocks _).1,
   (sales_zones_partition_blocks _).2 (by simp [sample_block])
     (sample_block "HB1" "V1") (by simp)⟩

end AggregationTheorems

section LocatorTheorems

/-- Every place kept by `filter_valid` has a non-empty id outside the
exclusion set and carries the zone's confidence label. -/
theorem mem_filter_valid {dist : ℚ → ℚ → ℚ → ℚ → ℚ} {lat lng maxd : ℚ}
    {excluded : List String} {zone : String} :
    ∀ (ps : List Place) (seen : List String) (q : Place),
      q ∈ filter_valid dist lat lng maxd excluded zone ps seen →
      q.place_id ∉ excluded ∧ q.place_id ≠ "" ∧ q.confidence_level = zone := by
  intro ps
  induction ps with
  | nil =>
    intro seen q hq
    simp [filter_valid] at hq
  | cons p ps ih =>
    intro seen q hq
    rw [filter_valid] at hq
    split at hq
    case isTrue hcond =>
      split at hq
      case isTrue htr =>
        split at hq
        case isTrue hd =>
          rcases List.mem_cons.mp hq with hq' | hq'
          · subst hq'
            exact ⟨hcond.2.2, hcond.1, rfl⟩
          · exact ih _ q hq'
        case isFalse => exact ih _ q hq
      case isFalse => exact ih _ q hq
    case isFalse => exact ih _ q hq

/-- The best-POI loop yields either its seed or a member of the list. -/
theorem best_poi_loop_mem :
    ∀ (l : List Place) (acc : Option (Place × ℚ)) (res : Place × ℚ),
      best_poi_loop l acc = some res → acc = some res ∨ res.1 ∈ l := by
  intro l
  induction l with
  | nil =>
    intro acc res h
    exact Or.inl h
  | cons p ps ih =>
    intro acc res h
    cases acc with
    | none =>
      rw [best_poi_loop] at h
      rcases ih _ res h with h' | h'
      · obtain rfl := Option.some.inj h'
        exact Or.inr (List.mem_cons_self _ _)
      · exact Or.inr (List.mem_cons_of_mem _ h')
    | some pr =>
      obtain ⟨b, bs⟩ := pr
      rw [best_poi_loop] at h
      split at h
      case isTrue =>
        rcases ih _ res h with h' | h'
        · obtain rfl := Option.some.inj h'
          exact Or.inr (List.mem_cons_self _ _)
        · exact Or.inr (List.mem_cons_of_mem _ h')
      case isFalse =>
        rcases ih _ res h with h' | h'
        · exact Or.inl h'
        · exact Or.inr (List.mem_cons_of_mem _ h')

/-- The winning candidate comes from the candidate list. -/
theorem select_best_poi_mem {l : List Place} {p : Place}
    (h : select_best_poi l = some p) : p ∈ l := by
  unfold select_best_poi at h
  cases hb : best_poi_loop l none with
  | none => rw [hb] at h; exact absurd h (by simp)
  | some pr =>
    rw [hb] at h
    have h2 : pr.1 = p := Option.some.inj h
    rcases best_poi_loop_mem l none pr hb with h' | h'
    · exact absurd h' (by simp)
    · rw [← h2]; exact h'

/-- A tier whose valid candidate list is empty is skipped. -/
theorem locate_tiers_skip_empty {provider : ℚ → ℚ → SearchSpec → List Place}
    {dist : ℚ → ℚ → ℚ → ℚ → ℚ} {lat lng : ℚ} {excluded : List String}
    {st : SearchStrategy} {rest : List SearchStrategy}
    (h : tier_valid provider dist lat lng excluded st = []) :
    locate_tiers provider dist lat lng excluded (st :: rest) =
      locate_tiers provider dist lat lng excluded rest := by
  rw [locate_tiers, h]
  rfl

/-- A tier with exactly one valid candidate returns it. -/
theorem locate_tiers_single_hit {provider : ℚ → ℚ → SearchSpec → List Place}
    {dist : ℚ → ℚ → ℚ → ℚ → ℚ} {lat lng : ℚ} {excluded : List String}
    {st : SearchStrategy} {rest : List SearchStrategy} {p : Place}
    (h : tier_valid provider dist lat lng excluded st = [p]) :
    locate_tiers provider dist lat lng excluded (st :: rest) = some p := by
  rw [locate_tiers, h]
  rfl

/-- Any place the tier loop returns is a valid candidate of one of the
visited tiers. -/
theorem locate_tiers_spec {provider : ℚ → ℚ → SearchSpec → List Place}
    {dist : ℚ → ℚ → ℚ → ℚ → ℚ} {lat lng : ℚ} {excluded : List String} :
    ∀ (sts : List SearchStrategy) (res : Place),
      locate_tiers provider dist lat lng excluded sts = some res →
      ∃ st ∈ sts, res ∈ tier_valid provider dist lat lng excluded st := by
  intro sts
  induction sts with
  | nil =>
    intro res h
    exact absurd h (by simp [locate_tiers])
  | cons st rest ih =>
    intro res h
    rw [locate_tiers] at h
    cases hsel : select_best_poi (tier_valid provider dist lat lng excluded st) with
    | some b =>
      rw [hsel] at h
      simp only [Option.some.injEq] at h
      subst h
      exact ⟨st, List.mem_cons_self _ _, select_best_poi_mem hsel⟩
    | none =>
      rw [hsel] at h
      obtain ⟨st', hst', hres⟩ := ih res h
      exact ⟨st', List.mem_cons_of_mem _ hst', hres⟩

/-- A successful locate call never returns an excluded or empty place id. -/
theorem find_nearest_ok_not_excluded {env : String → Option String}
    {provider : ℚ → ℚ → SearchSpec → List Place} {dist : ℚ → ℚ → ℚ → ℚ → ℚ}
    {lat lng : ℚ} {excluded : List String} {p : Place}
    (h : find_nearest_convenience_store_for_residential_analysis
      env provider dist lat lng excluded = Except.ok (some p)) :
    p.place_id ∉ excluded ∧ p.place_id ≠ "" := by
  unfold find_nearest_convenience_store_for_residential_analysis at h
  cases henv : env "GOOGLE_MAPS_API_KEY" with
  | none =>
    rw [henv] at h
    exact absurd h (by simp)
  | some k =>
    rw [henv] at h
    dsimp only at h
    split at h
    case isTrue => exact absurd h (by simp)
    case isFalse =>
      simp only [Except.ok.injEq] at h
      obtain ⟨st, _, hp⟩ := locate_tiers_spec search_strategies p h
      have := mem_filter_valid _ _ p hp
      exact ⟨this.1, this.2.1⟩

end LocatorTheorems

section LocatorClaimTheorems

/-- C6: the locate call visits the confidence zones in fixed order and
returns the best candidate of the first zone with any valid candidate. For
any provider behaviour: when the HIGH zone has no valid candidate and the
MEDIUM zone has exactly one (supermarket) candidate, that candidate is
returned with confidence MEDIUM — the LOW zone's provider results never
enter the result, since the conclusion holds for every provider satisfying
the two premises. -/
theorem poi_locator_stops_at_first_tier :
    ∀ (provider : ℚ → ℚ → SearchSpec → List Place) (dist : ℚ → ℚ → ℚ → ℚ → ℚ)
      (lat lng : ℚ) (excluded : List String) (env : String → Option String)
      (k : String) (p : Place),
      env "GOOGLE_MAPS_API_KEY" = some k → k ≠ "" →
      tier_valid provider dist lat lng excluded strategy_high = [] →
      tier_valid provider dist lat lng excluded strategy_medium = [p] →
      "supermarket" ∈ p.types →
      find_nearest_convenience_store_for_residential_analysis env provider dist
          lat lng excluded = Except.ok (some p) ∧
        p.confidence_level = "MEDIUM" := by
  intro provider dist lat lng excluded env k p henv hk h1 h2 _
  constructor
  · unfold find_nearest_convenience_store_for_residential_analysis
    rw [henv]
    dsimp only
    rw [if_neg hk]
    unfold search_strategies
    rw [locate_tiers_skip_empty h1, locate_tiers_single_hit h2]
  · have hp : p ∈ tier_valid provider dist lat lng excluded strategy_medium := by
      rw [h2]
      exact List.mem_cons_self _ _
    exact (mem_filter_valid _ _ p hp).2.2

/-- Witness instantiating `poi_locator_stops_at_first_tier` with a provider
double whose only hit is the MEDIUM-zone `Big C` query. -/
theorem poi_locator_stops_at_first_tier_witness :
    find_nearest_convenience_store_for_residential_analysis demo_env
        demo_provider zero_distance 9 99 [] = Except.ok (some demo_place_located) ∧
      demo_place_located.confidence_level = "MEDIUM" :=
  poi_locator_stops_at_first_tier demo_provider zero_distance 9 99 [] demo_env
    "demo-key" demo_place_located rfl (by decide) (by rfl) (by rfl) (by decide)

/-- The batch loop's running results have pairwise-distinct place ids, and
every result id avoids the exclusion set the loop started from. -/
theorem process_batch_nodup (env : String → Option String)
    (provider : ℚ → ℚ → SearchSpec → List Place) (dist : ℚ → ℚ → ℚ → ℚ → ℚ) :
    ∀ (villages : List Village) (used : List String),
      ((process_village_batch env provider dist villages used).map
        (·.indicator_place_id)).Nodup ∧
      ∀ r ∈ process_village_batch env provider dist villages used,
        r.indicator_place_id ∉ used ∧ r.indicator_place_id ≠ "" := by
  intro villages
  induction villages with
  | nil =>
    intro used
    constructor
    · simp [process_village_batch]
    · intro r hr
      simp [process_village_batch] at hr
  | cons v vs ih =>
    intro used
    cases hg : get_poi_for_village env provider dist v.name v.lat v.lng used with
    | error e =>
      rw [process_village_batch, hg]
      exact ih used
    | ok row =>
      rw [process_village_batch, hg]
      dsimp only
      by_cases hrow : row.indicator_poi ≠ ""
      · rw [if_pos hrow]
        have hprops : row.indicator_place_id ∉ used ∧ row.indicator_place_id ≠ "" := by
          unfold get_poi_for_village at hg
          cases hf : find_nearest_convenience_store_for_residential_analysis
              env provider dist v.lat v.lng used with
          | error e =>
            rw [hf] at hg
            exact absurd hg (by simp)
          | ok o =>
            cases o with
            | none =>
              rw [hf] at hg
              obtain rfl := Except.ok.inj hg
              exact absurd rfl hrow
            | some p =>
              rw [hf] at hg
              obtain rfl := Except.ok.inj hg
              exact find_nearest_ok_not_excluded hf
        rw [if_pos hprops.2]
        obtain ⟨ihn, ihm⟩ := ih (row.indicator_place_id :: used)
        constructor
        · simp only [List.map_cons]
          refine List.nodup_cons.mpr ⟨?_, ihn⟩
          intro hmem
          obtain ⟨r, hr, hre⟩ := List.mem_map.mp hmem
          exact (ihm r hr).1 (hre ▸ List.mem_cons_self _ _)
        · intro r hr
          rcases List.mem_cons.mp hr with rfl | hr'
          · exact hprops
          · refine ⟨?_, (ihm r hr').2⟩
            intro hmem
            exact (ihm r hr').1 (List.mem_cons_of_mem _ hmem)
      · rw [if_neg hrow]
        exact ih used

/-- C7: the exclusion invariant. A locate call never returns a POI whose id
is in the caller's exclusion set, and the batch loop — which adds each found
id to the exclusion set before the next village — never assigns the same POI
id to two villages, whatever the provider behaviour and starting exclusion
set. -/
theorem poi_exclusion_invariant :
    (∀ (env : String → Option String) (provider : ℚ → ℚ → SearchSpec → List Place)
      (dist : ℚ → ℚ → ℚ → ℚ → ℚ) (lat lng : ℚ) (excluded : List String) (p : Place),
      find_nearest_convenience_store_for_residential_analysis env provider dist
        lat lng excluded = Except.ok (some p) → p.place_id ∉ excluded) ∧
    (∀ (env : String → Option String) (provider : ℚ → ℚ → SearchSpec → List Place)
      (dist : ℚ → ℚ → ℚ → ℚ → ℚ) (villages : List Village) (used : List String),
      ((process_village_batch env provider dist villages used).map
        (·.indicator_place_id)).Nodup) :=
  ⟨fun _ _ _ _ _ _ _ h => (find_nearest_ok_not_excluded h).1,
   fun env provider dist villages used =>
    (process_batch_nodup env provider dist villages used).1⟩

/-- Witness instantiating `poi_exclusion_invariant`: the demo locate call's
result id avoids a non-trivial exclusion set, and a concrete two-village
batch yields distinct place ids. -/
theorem poi_exclusion_invariant_witness :
    demo_place_located.place_id ∉ (["OTHER_POI"] : List String) ∧
    ((process_village_batch demo_env demo_provider zero_distance
        [⟨"V1", 9, 99⟩, ⟨"V2", 9, 99⟩] []).map (·.indicator_place_id)).Nodup :=
  ⟨poi_exclusion_invariant.1 demo_env demo_provider zero_distance 9 99
      ["OTHER_POI"] demo_place_located (by rfl),
   poi_exclusion_invariant.2 demo_env demo_provider zero_distance
      [⟨"V1", 9, 99⟩, ⟨"V2", 9, 99⟩] []⟩

/-- C10 counterexample: with the credentials unset, the locator raises
`RuntimeError` to its caller (the client is constructed before the catch-all
`try`), and the busyness client's key helper raises too — neither reports a
capability-disabled `None`/default. -/
theorem missing_credentials_raise :
    find_nearest_convenience_store_for_residential_analysis none_env
        demo_provider zero_distance 9 99 [] =
      Except.error "GOOGLE_MAPS_API_KEY environment variable is required" ∧
    besttime_private_key none_env =
      Except.error "BESTTIME_API_KEY_PRIVATE is not set" :=
  ⟨rfl, rfl⟩

/-- C10 amended: if the credentials for an external provider are missing
(unset or empty), the affected locator or key helper raises a runtime error
to its caller rather than returning `None` or a default result. -/
theorem missing_credentials_error :
    (∀ (env : String → Option String) (provider : ℚ → ℚ → SearchSpec → List Place)
      (dist : ℚ → ℚ → ℚ → ℚ → ℚ) (lat lng : ℚ) (excluded : List String),
      (env "GOOGLE_MAPS_API_KEY" = none ∨ env "GOOGLE_MAPS_API_KEY" = some "") →
      find_nearest_convenience_store_for_residential_analysis env provider dist
        lat lng excluded =
        Except.error "GOOGLE_MAPS_API_KEY environment variable is required") ∧
    (∀ env : String → Option String,
      (env "BESTTIME_API_KEY_PRIVATE" = none ∨
        env "BESTTIME_API_KEY_PRIVATE" = some "") →
      besttime_private_key env = Except.error "BESTTIME_API_KEY_PRIVATE is not set") := by
  constructor
  · intro env provider dist lat lng excluded henv
    unfold find_nearest_convenience_store_for_residential_analysis
    rcases henv with h | h
    · rw [h]
    · rw [h]
      dsimp only
      rw [if_pos rfl]
  · intro env henv
    unfold besttime_private_key
    rcases henv with h | h
    · rw [h]
    · rw [h]
      dsimp only
      rw [if_pos rfl]

/-- Witness instantiating `missing_credentials_error` at the empty
environment. -/
theorem missing_credentials_error_witness :
    find_nearest_convenience_store_for_residential_analysis none_env
        demo_provider zero_distance 9 99 [] =
      Except.error "GOOGLE_MAPS_API_KEY environment variable is required" ∧
    besttime_private_key none_env =
      Except.error "BESTTIME_API_KEY_PRIVATE is not set" :=
  ⟨missing_credentials_error.1 none_env demo_provider zero_distance 9 99 []
      (Or.inl rfl),
   missing_credentials_error.2 none_env (Or.inl rfl)⟩

end LocatorClaimTheorems

section GridFallbackTheorems

/-- C8: grid fallback is deterministic. `"09320-099700"` decodes to
`(9320, 99700)`; the generated neighbor list is exactly ring 1's four
axis-aligned ±5 offsets, then ring 2's four diagonal ±5/±5 offsets, then
ring 3's eight ±10/±5 offsets, in that order; and the first neighbor —
ring-1 offset `(-5, 0)` — is `"09315-099700"` at decimal coordinate
`(9.315, 99.700)`. -/
theorem grid_fallback_deterministic :
    parse_happy_block "09320-099700" = some (9320, 99700) ∧
    generate_nearby_happy_blocks "09320-099700" =
      [("09315-099700", ((9315 : ℤ) : ℚ) / 1000, ((99700 : ℤ) : ℚ) / 1000),
       ("09325-099700", ((9325 : ℤ) : ℚ) / 1000, ((99700 : ℤ) : ℚ) / 1000),
       ("09320-099695", ((9320 : ℤ) : ℚ) / 1000, ((99695 : ℤ) : ℚ) / 1000),
       ("09320-099705", ((9320 : ℤ) : ℚ) / 1000, ((99705 : ℤ) : ℚ) / 1000),
       ("09315-099695", ((9315 : ℤ) : ℚ) / 1000, ((99695 : ℤ) : ℚ) / 1000),
       ("09315-099705", ((9315 : ℤ) : ℚ) / 1000, ((99705 : ℤ) : ℚ) / 1000),
       ("09325-099695", ((9325 : ℤ) : ℚ) / 1000, ((99695 : ℤ) : ℚ) / 1000),
       ("09325-099705", ((9325 : ℤ) : ℚ) / 1000, ((99705 : ℤ) : ℚ) / 1000),
       ("09310-099700", ((9310 : ℤ) : ℚ) / 1000, ((99700 : ℤ) : ℚ) / 1000),
       ("09330-099700", ((9330 : ℤ) : ℚ) / 1000, ((99700 : ℤ) : ℚ) / 1000),
       ("09320-099690", ((9320 : ℤ) : ℚ) / 1000, ((99690 : ℤ) : ℚ) / 1000),
       ("09320-099710", ((9320 : ℤ) : ℚ) / 1000, ((99710 : ℤ) : ℚ) / 1000),
       ("09310-099695", ((9310 : ℤ) : ℚ) / 1000, ((99695 : ℤ) : ℚ) / 1000),
       ("09310-099705", ((9310 : ℤ) : ℚ) / 1000, ((99705 : ℤ) : ℚ) / 1000),
       ("09330-099695", ((9330 : ℤ) : ℚ) / 1000, ((99695 : ℤ) : ℚ) / 1000),
       ("09330-099705", ((9330 : ℤ) : ℚ) / 1000, ((99705 : ℤ) : ℚ) / 1000)] ∧
    (generate_nearby_happy_blocks "09320-099700").head? =
      some ("09315-099700", 9.315, 99.7) := by
  refine ⟨rfl, rfl, ?_⟩
  have h : (generate_nearby_happy_blocks "09320-099700").head? =
      some ("09315-099700", ((9315 : ℤ) : ℚ) / 1000, ((99700 : ℤ) : ℚ) / 1000) := rfl
  rw [h]
  norm_num

end GridFallbackTheorems

section PeakHoursTheorems

/-- C9 counterexample: with four qualifying hours `6→1, 7→2, 8→3, 18→5`
(threshold 1), the code returns the first three in series order
(`["06:00","07:00","08:00"]`), not the top three ranked by descending
intensity as the claim states (which would keep hour 18, the busiest). -/
theorem peak_hours_not_intensity_ranked :
    extract_peak_hours [[⟨6, 1⟩, ⟨7, 2⟩, ⟨8, 3⟩, ⟨18, 5⟩]] 0 1 =
      ["06:00", "07:00", "08:00"] ∧
    spec_ranked_peak_hours [⟨6, 1⟩, ⟨7, 2⟩, ⟨8, 3⟩, ⟨18, 5⟩] 1 =
      ["07:00", "08:00", "18:00"] ∧
    extract_peak_hours [[⟨6, 1⟩, ⟨7, 2⟩, ⟨8, 3⟩, ⟨18, 5⟩]] 0 1 ≠
      spec_ranked_peak_hours [⟨6, 1⟩, ⟨7, 2⟩, ⟨8, 3⟩, ⟨18, 5⟩] 1 := by
  refine ⟨by decide, by decide, by decide⟩

/-- C9 amended: peak extraction filters out the 999 sentinel (closed) hours,
keeps only hours at or above the minimum-peak threshold, and returns up to
three of them in the series' own order (the first three qualifying hours, no
intensity ranking), formatted as `HH:00`. In particular a day that is all
sentinel except one below-threshold hour yields no peaks, and a day with
hour 18 at intensity 5 (threshold 1) and hour 10 at the sentinel yields
exactly `["18:00"]`. -/
theorem peak_hours_filter_and_take :
    ∀ (analysis : List (List HourRec)) (d : ℕ) (m : ℤ),
      ((extract_peak_hours analysis d m).length ≤ 3 ∧
       (∀ s ∈ extract_peak_hours analysis d m,
         ∃ h ∈ analysis.getD d [], h.intensity ≠ 999 ∧ m ≤ h.intensity ∧
           s = String.mk (int_pad 2 h.hour) ++ ":00") ∧
       List.Sublist (extract_peak_hours analysis d m)
         ((analysis.getD d []).map (fun h => String.mk (int_pad 2 h.hour) ++ ":00"))) ∧
      (extract_peak_hours [[⟨8, 999⟩, ⟨9, 999⟩, ⟨10, 0⟩]] 0 1 = [] ∧
       extract_peak_hours [[⟨10, 999⟩, ⟨18, 5⟩]] 0 1 = ["18:00"]) := by
  intro analysis d m
  refine ⟨⟨?_, ?_, ?_⟩, by decide, by decide⟩
  · unfold extract_peak_hours
    split_ifs
    · simp
    · exact le_trans (List.length_take_le _ _) (le_refl 3)
  · intro s hs
    unfold extract_peak_hours at hs
    split_ifs at hs
    · simp at hs
    · have hs' := List.mem_of_mem_take hs
      obtain ⟨h, hh, rfl⟩ := List.mem_map.mp hs'
      obtain ⟨hmem, hp⟩ := List.mem_filter.mp hh
      obtain ⟨h1, h2⟩ := of_decide_eq_true hp
      exact ⟨h, hmem, h1, h2, rfl⟩
  · unfold extract_peak_hours
    split_ifs
    · exact List.nil_sublist _
    · exact List.Sublist.trans (List.take_sublist _ _)
        (List.Sublist.map _ (List.filter_sublist _))

/-- Witness instantiating `peak_hours_filter_and_take` on the concrete
sentinel-plus-peak day. -/
theorem peak_hours_filter_and_take_witness :
    (extract_peak_hours [[⟨10, 999⟩, ⟨18, 5⟩]] 0 1).length ≤ 3 ∧
    (∃ h ∈ [(⟨10, 999⟩ : HourRec), ⟨18, 5⟩], h.intensity ≠ 999 ∧
      (1 : ℤ) ≤ h.intensity ∧ "18:00" = String.mk (int_pad 2 h.hour) ++ ":00") :=
  ⟨(peak_hours_filter_and_take [[⟨10, 999⟩, ⟨18, 5⟩]] 0 1).1.1,
   (peak_hours_filter_and_take [[⟨10, 999⟩, ⟨18, 5⟩]] 0 1).1.2.1 "18:00" (by decide)⟩

end PeakHoursTheorems
